import Mathlib

/-!
Shallow embedding of the scoring core of the ABC Persona training app
(`src/app.py`): the weighted scoring function `compute_b_score`, its
rating validation, and the threshold classifier `decision_from_score`,
together with proofs of the specification claims about them.

Python numeric values passed as ratings are modelled by `PyVal`
(int / bool / float), so that `isinstance(v, int)` — which is true for
`bool` in Python — and the raised `TypeError` / `ValueError` can be
captured faithfully. Arithmetic is modelled over `ℚ`; Python's `round`
(banker's rounding) is modelled by `roundHalfEven`.
-/

/-- A Python value that might be passed as a rating: an `int`, a `bool`
(which in Python is a subtype of `int`, with `True == 1`, `False == 0`),
or a `float`. -/
inductive PyVal where
  | int (n : ℤ)
  | bool (b : Bool)
  | float (q : ℚ)
  deriving DecidableEq

/-- Python's `isinstance(v, int)`: true for `int` and `bool`, false for `float`. -/
def isinstance_int : PyVal → Bool
  | .int _ => true
  | .bool _ => true
  | .float _ => false

/-- The integer value of a `PyVal` that passed the `isinstance(v, int)`
check (only `int` and `bool` reach arithmetic in the source). -/
def pyToInt : PyVal → ℤ
  | .int n => n
  | .bool b => if b then 1 else 0
  | .float _ => 0

/-- The error raised by `compute_b_score`'s validation loop:
`TypeError (f"{name} must be int")` or `ValueError (f"{name} must be in [1,5]")`. -/
inductive InvalidRating where
  | wrongType (name : String)
  | outOfRange (name : String)
  deriving DecidableEq

/-- `class BScoreWeights` from `src/app.py` (lines 41-47). -/
structure BScoreWeights where
  company_fit : ℚ
  cost_stability : ℚ
  manufacturability : ℚ
  customer_acceptance : ℚ
  repurchase : ℚ
  deriving DecidableEq

/-- The default field values of `BScoreWeights`:
0.20, 0.20, 0.15, 0.15, 0.20. -/
def defaultWeights : BScoreWeights :=
  ⟨0.20, 0.20, 0.15, 0.15, 0.20⟩

/-- One iteration of the validation loop in `compute_b_score`:
`if not isinstance(v, int): raise TypeError(...)` then
`if v < 1 or v > 5: raise ValueError(...)`. -/
def checkRating (name : String) (v : PyVal) : Except InvalidRating ℤ :=
  if isinstance_int v = false then .error (.wrongType name)
  else if pyToInt v < 1 ∨ 5 < pyToInt v then .error (.outOfRange name)
  else .ok (pyToInt v)

/-- Python's `round` to the nearest integer: round half to even
(banker's rounding), modelled on `ℚ`. -/
def roundHalfEven (q : ℚ) : ℤ :=
  if q - (⌊q⌋ : ℚ) < 1/2 then ⌊q⌋
  else if 1/2 < q - (⌊q⌋ : ℚ) then ⌊q⌋ + 1
  else if ⌊q⌋ % 2 = 0 then ⌊q⌋ else ⌊q⌋ + 1

/-- Python's `round(x, 2)`: round to two decimal places. -/
def round2 (q : ℚ) : ℚ :=
  (roundHalfEven (q * 100) : ℚ) / 100

/-- `compute_b_score` from `src/app.py` (lines 50-78): validate the five
ratings in order (raising on the first invalid one), then return the
weighted sum rounded to two decimals. -/
def compute_b_score
    (company_fit cost_stability manufacturability customer_acceptance repurchase : PyVal)
    (weights : BScoreWeights) : Except InvalidRating ℚ :=
  Except.bind (checkRating "company_fit" company_fit) (fun cf =>
  Except.bind (checkRating "cost_stability" cost_stability) (fun cs =>
  Except.bind (checkRating "manufacturability" manufacturability) (fun mf =>
  Except.bind (checkRating "customer_acceptance" customer_acceptance) (fun ca =>
  Except.bind (checkRating "repurchase" repurchase) (fun rp =>
  Except.ok (round2
    ( (cf : ℚ) * weights.company_fit
    + (cs : ℚ) * weights.cost_stability
    + (mf : ℚ) * weights.manufacturability
    + (ca : ℚ) * weights.customer_acceptance
    + (rp : ℚ) * weights.repurchase )))))))

/-- `decision_from_score` from `src/app.py` (lines 81-86). -/
def decision_from_score (score : ℚ) (go_threshold hold_threshold : ℚ) : String :=
  if go_threshold ≤ score then "GO"
  else if hold_threshold ≤ score then "HOLD"
  else "DROP"

/-- A `PyVal` is a valid rating when it passes both checks of the
validation loop: it is an `int` in Python's sense and its value is in [1,5]. -/
def validR (v : PyVal) : Prop :=
  isinstance_int v = true ∧ 1 ≤ pyToInt v ∧ pyToInt v ≤ 5

instance (v : PyVal) : Decidable (validR v) := by
  unfold validR; infer_instance

/-- Both computations succeeded and the first result is at most the second. -/
def okLe (x y : Except InvalidRating ℚ) : Prop :=
  ∃ q q', x = .ok q ∧ y = .ok q' ∧ q ≤ q'

/-! ### Helper lemmas -/

instance {ε α : Type} [DecidableEq ε] [DecidableEq α] : DecidableEq (Except ε α) := fun x y =>
  match x, y with
  | .ok a, .ok b => if h : a = b then .isTrue (by rw [h]) else .isFalse (by simp [h])
  | .error a, .error b => if h : a = b then .isTrue (by rw [h]) else .isFalse (by simp [h])
  | .ok _, .error _ => .isFalse (by simp)
  | .error _, .ok _ => .isFalse (by simp)

theorem except_bind_ok {α β ε : Type} (a : α) (f : α → Except ε β) :
    Except.bind (Except.ok a) f = f a := rfl

theorem except_bind_error {α β ε : Type} (e : ε) (f : α → Except ε β) :
    Except.bind (Except.error e : Except ε α) f = Except.error e := rfl

theorem checkRating_valid {name : String} {v : PyVal} (h : validR v) :
    checkRating name v = .ok (pyToInt v) := by
  obtain ⟨h1, h2, h3⟩ := h
  unfold checkRating
  rw [if_neg (by rw [h1]; decide), if_neg (by omega)]

theorem checkRating_invalid {name : String} {v : PyVal} (h : ¬ validR v) :
    ∃ e, checkRating name v = .error e := by
  unfold checkRating
  split_ifs with hA hB
  · exact ⟨_, rfl⟩
  · exact ⟨_, rfl⟩
  · exact absurd ⟨by revert hA; cases isinstance_int v <;> simp, by omega, by omega⟩ h

theorem compute_valid {cf cs mf ca rp : PyVal} (w : BScoreWeights)
    (h1 : validR cf) (h2 : validR cs) (h3 : validR mf) (h4 : validR ca) (h5 : validR rp) :
    compute_b_score cf cs mf ca rp w =
      .ok (round2
        ( (pyToInt cf : ℚ) * w.company_fit
        + (pyToInt cs : ℚ) * w.cost_stability
        + (pyToInt mf : ℚ) * w.manufacturability
        + (pyToInt ca : ℚ) * w.customer_acceptance
        + (pyToInt rp : ℚ) * w.repurchase )) := by
  unfold compute_b_score
  rw [checkRating_valid h1, checkRating_valid h2, checkRating_valid h3,
    checkRating_valid h4, checkRating_valid h5]
  rfl

theorem validR_int {n : ℤ} (h1 : 1 ≤ n) (h2 : n ≤ 5) : validR (.int n) :=
  ⟨rfl, h1, h2⟩

theorem compute_int_valid {a b c d e : ℤ} (w : BScoreWeights)
    (ha1 : 1 ≤ a) (ha2 : a ≤ 5) (hb1 : 1 ≤ b) (hb2 : b ≤ 5)
    (hc1 : 1 ≤ c) (hc2 : c ≤ 5) (hd1 : 1 ≤ d) (hd2 : d ≤ 5)
    (he1 : 1 ≤ e) (he2 : e ≤ 5) :
    compute_b_score (.int a) (.int b) (.int c) (.int d) (.int e) w =
      .ok (round2
        ( (a : ℚ) * w.company_fit + (b : ℚ) * w.cost_stability
        + (c : ℚ) * w.manufacturability + (d : ℚ) * w.customer_acceptance
        + (e : ℚ) * w.repurchase )) :=
  compute_valid w (validR_int ha1 ha2) (validR_int hb1 hb2) (validR_int hc1 hc2)
    (validR_int hd1 hd2) (validR_int he1 he2)

theorem roundHalfEven_intCast (n : ℤ) : roundHalfEven (n : ℚ) = n := by
  unfold roundHalfEven
  rw [Int.floor_intCast]
  rw [if_pos (by norm_num)]

theorem round2_eq_self {q : ℚ} {n : ℤ} (h : q * 100 = (n : ℚ)) : round2 q = q := by
  unfold round2
  rw [h, roundHalfEven_intCast, ← h]
  field_simp

theorem roundHalfEven_mono {x y : ℚ} (h : x ≤ y) : roundHalfEven x ≤ roundHalfEven y := by
  have hf : ⌊x⌋ ≤ ⌊y⌋ := Int.floor_le_floor h
  rcases lt_or_eq_of_le hf with hlt | heq
  · have h1 : roundHalfEven x ≤ ⌊x⌋ + 1 := by
      unfold roundHalfEven; split_ifs <;> omega
    have h2 : ⌊y⌋ ≤ roundHalfEven y := by
      unfold roundHalfEven; split_ifs <;> omega
    omega
  · unfold roundHalfEven
    rw [← heq]
    split_ifs <;> first | omega | (exfalso; linarith)

theorem round2_mono {x y : ℚ} (h : x ≤ y) : round2 x ≤ round2 y := by
  unfold round2
  have : roundHalfEven (x * 100) ≤ roundHalfEven (y * 100) :=
    roundHalfEven_mono (by linarith)
  have hcast : (roundHalfEven (x * 100) : ℚ) ≤ (roundHalfEven (y * 100) : ℚ) :=
    Int.cast_le.mpr this
  linarith

theorem default_score_bounds {a b c d e : ℤ}
    (ha1 : 1 ≤ a) (ha2 : a ≤ 5) (hb1 : 1 ≤ b) (hb2 : b ≤ 5)
    (hc1 : 1 ≤ c) (hc2 : c ≤ 5) (hd1 : 1 ≤ d) (hd2 : d ≤ 5)
    (he1 : 1 ≤ e) (he2 : e ≤ 5) :
    ∃ q, compute_b_score (.int a) (.int b) (.int c) (.int d) (.int e) defaultWeights = .ok q
      ∧ 9/10 ≤ q ∧ q ≤ 9/2 := by
  have hs : ((a : ℚ) * defaultWeights.company_fit + (b : ℚ) * defaultWeights.cost_stability
      + (c : ℚ) * defaultWeights.manufacturability
      + (d : ℚ) * defaultWeights.customer_acceptance
      + (e : ℚ) * defaultWeights.repurchase) * 100
      = ((20*a + 20*b + 15*c + 15*d + 20*e : ℤ) : ℚ) := by
    show ((a : ℚ) * (0.20 : ℚ) + (b : ℚ) * (0.20 : ℚ) + (c : ℚ) * (0.15 : ℚ)
      + (d : ℚ) * (0.15 : ℚ) + (e : ℚ) * (0.20 : ℚ)) * 100 = _
    push_cast
    norm_num
    ring
  have hlo : (90 : ℤ) ≤ 20*a + 20*b + 15*c + 15*d + 20*e := by omega
  have hhi : 20*a + 20*b + 15*c + 15*d + 20*e ≤ (450 : ℤ) := by omega
  have hloq : (90 : ℚ) ≤ ((20*a + 20*b + 15*c + 15*d + 20*e : ℤ) : ℚ) := by exact_mod_cast hlo
  have hhiq : ((20*a + 20*b + 15*c + 15*d + 20*e : ℤ) : ℚ) ≤ (450 : ℚ) := by exact_mod_cast hhi
  refine ⟨_, compute_int_valid defaultWeights ha1 ha2 hb1 hb2 hc1 hc2 hd1 hd2 he1 he2, ?_, ?_⟩
  · rw [round2_eq_self hs]
    linarith
  · rw [round2_eq_self hs]
    linarith

/-! ### Claims -/

/-- C1: with the default weight vector (0.20, 0.20, 0.15, 0.15, 0.20),
`compute_b_score` applied to the ratings (3, 3, 4, 4, 4) returns exactly
3.20, as asserted by the repository's own self-test. -/
theorem C1_default_score_33444 :
    compute_b_score (.int 3) (.int 3) (.int 4) (.int 4) (.int 4) defaultWeights
      = .ok 3.20 := by
  rw [compute_int_valid defaultWeights (by norm_num) (by norm_num) (by norm_num) (by norm_num)
    (by norm_num) (by norm_num) (by norm_num) (by norm_num) (by norm_num) (by norm_num)]
  have hs : ((3 : ℤ) : ℚ) * defaultWeights.company_fit
      + ((3 : ℤ) : ℚ) * defaultWeights.cost_stability
      + ((4 : ℤ) : ℚ) * defaultWeights.manufacturability
      + ((4 : ℤ) : ℚ) * defaultWeights.customer_acceptance
      + ((4 : ℤ) : ℚ) * defaultWeights.repurchase = 16/5 := by
    norm_num [defaultWeights]
  rw [hs, round2_eq_self (show (16/5 : ℚ) * 100 = ((320 : ℤ) : ℚ) by norm_num)]
  norm_num

/-- C2: `decision_from_score` is total and returns "GO" when the score is
at least `go_threshold`, otherwise "HOLD" when it is at least
`hold_threshold`, otherwise "DROP"; with the defaults `go_threshold = 3.2`
and `hold_threshold = 3.0` it maps 3.20 to GO, 3.00 to HOLD and 2.99 to
DROP, each bucket's lower edge being inclusive. -/
theorem C2_decision_total :
    (∀ s g h : ℚ, g ≤ s → decision_from_score s g h = "GO") ∧
    (∀ s g h : ℚ, ¬ g ≤ s → h ≤ s → decision_from_score s g h = "HOLD") ∧
    (∀ s g h : ℚ, ¬ g ≤ s → ¬ h ≤ s → decision_from_score s g h = "DROP") ∧
    decision_from_score 3.20 3.2 3.0 = "GO" ∧
    decision_from_score 3.00 3.2 3.0 = "HOLD" ∧
    decision_from_score 2.99 3.2 3.0 = "DROP" := by
  refine ⟨?_, ?_, ?_, by norm_num [decision_from_score],
    by norm_num [decision_from_score], by norm_num [decision_from_score]⟩
  · intro s g h hgo
    unfold decision_from_score
    rw [if_pos hgo]
  · intro s g h hgo hhold
    unfold decision_from_score
    rw [if_neg hgo, if_pos hhold]
  · intro s g h hgo hhold
    unfold decision_from_score
    rw [if_neg hgo, if_neg hhold]

/-- C8: two calls of `compute_b_score` with identical rating tuples and
identical weight vectors yield identical outputs, and two calls of
`decision_from_score` with identical score and thresholds yield identical
outputs: both are pure functions of their arguments. -/
theorem C8_determinism
    (cf cs mf ca rp cf' cs' mf' ca' rp' : PyVal) (w w' : BScoreWeights)
    (s g h s' g' h' : ℚ)
    (hargs : cf = cf' ∧ cs = cs' ∧ mf = mf' ∧ ca = ca' ∧ rp = rp' ∧ w = w')
    (hsc : s = s' ∧ g = g' ∧ h = h') :
    compute_b_score cf cs mf ca rp w = compute_b_score cf' cs' mf' ca' rp' w' ∧
    decision_from_score s g h = decision_from_score s' g' h' := by
  obtain ⟨e1, e2, e3, e4, e5, e6⟩ := hargs
  obtain ⟨f1, f2, f3⟩ := hsc
  subst e1 e2 e3 e4 e5 e6 f1 f2 f3
  exact ⟨rfl, rfl⟩

theorem C8_determinism_witness :
    compute_b_score (.int 3) (.int 3) (.int 4) (.int 4) (.int 4) defaultWeights
      = compute_b_score (.int 3) (.int 3) (.int 4) (.int 4) (.int 4) defaultWeights ∧
    decision_from_score 3.2 3.2 3.0 = decision_from_score 3.2 3.2 3.0 :=
  C8_determinism (.int 3) (.int 3) (.int 4) (.int 4) (.int 4)
    (.int 3) (.int 3) (.int 4) (.int 4) (.int 4) defaultWeights defaultWeights
    3.2 3.2 3.0 3.2 3.2 3.0
    ⟨rfl, rfl, rfl, rfl, rfl, rfl⟩ ⟨rfl, rfl, rfl⟩

/-- C10: `decision_from_score` tests the GO threshold first, so for every
pair of thresholds — including inverted configurations with
`hold_threshold > go_threshold` — any score at least `go_threshold`
yields "GO" regardless of `hold_threshold`. -/
theorem C10_go_tested_first (s go_threshold hold_threshold : ℚ)
    (h : go_threshold ≤ s) :
    decision_from_score s go_threshold hold_threshold = "GO" := by
  unfold decision_from_score
  rw [if_pos h]

theorem C10_go_tested_first_witness :
    decision_from_score 3.2 3.2 10 = "GO" :=
  C10_go_tested_first 3.2 3.2 10 (by norm_num)

/-- C3: `compute_b_score` fails with an `InvalidRating` error — wrong type
when the rating is not an `int`, out of range when it is outside [1,5] —
exactly when some rating is invalid; in particular it fails on 0, 6 and
the float 3.0, and succeeds on every rating tuple of integers in [1,5]. -/
theorem C3_invalid_rating (cf cs mf ca rp : PyVal) (w : BScoreWeights) :
    ((∃ q, compute_b_score cf cs mf ca rp w = .ok q) ↔
      validR cf ∧ validR cs ∧ validR mf ∧ validR ca ∧ validR rp) ∧
    compute_b_score (.int 0) (.int 3) (.int 3) (.int 3) (.int 3) w
      = .error (.outOfRange "company_fit") ∧
    compute_b_score (.int 6) (.int 3) (.int 3) (.int 3) (.int 3) w
      = .error (.outOfRange "company_fit") ∧
    compute_b_score (.float 3) (.int 3) (.int 3) (.int 3) (.int 3) w
      = .error (.wrongType "company_fit") := by
  refine ⟨⟨?_, ?_⟩, rfl, rfl, rfl⟩
  · rintro ⟨q, hq⟩
    unfold compute_b_score at hq
    by_cases h1 : validR cf
    · rw [checkRating_valid h1, except_bind_ok] at hq
      by_cases h2 : validR cs
      · rw [checkRating_valid h2, except_bind_ok] at hq
        by_cases h3 : validR mf
        · rw [checkRating_valid h3, except_bind_ok] at hq
          by_cases h4 : validR ca
          · rw [checkRating_valid h4, except_bind_ok] at hq
            by_cases h5 : validR rp
            · exact ⟨h1, h2, h3, h4, h5⟩
            · obtain ⟨e, he⟩ := checkRating_invalid h5
              rw [he, except_bind_error] at hq
              simp at hq
          · obtain ⟨e, he⟩ := checkRating_invalid h4
            rw [he, except_bind_error] at hq
            simp at hq
        · obtain ⟨e, he⟩ := checkRating_invalid h3
          rw [he, except_bind_error] at hq
          simp at hq
      · obtain ⟨e, he⟩ := checkRating_invalid h2
        rw [he, except_bind_error] at hq
        simp at hq
    · obtain ⟨e, he⟩ := checkRating_invalid h1
      rw [he, except_bind_error] at hq
      simp at hq
  · rintro ⟨h1, h2, h3, h4, h5⟩
    exact ⟨_, compute_valid w h1 h2 h3 h4 h5⟩

/-- C9: Python's `bool` is a subtype of `int`, so `compute_b_score`
accepts `True` as a rating, scoring it exactly as the integer 1 in every
position, while `False` is rejected with the out-of-range error (its
value 0 lies outside [1,5]), not the wrong-type error. -/
theorem C9_bool_ratings (v1 v2 v3 v4 : PyVal) (w : BScoreWeights) :
    (compute_b_score (.bool true) v1 v2 v3 v4 w
      = compute_b_score (.int 1) v1 v2 v3 v4 w) ∧
    (compute_b_score v1 (.bool true) v2 v3 v4 w
      = compute_b_score v1 (.int 1) v2 v3 v4 w) ∧
    (compute_b_score v1 v2 (.bool true) v3 v4 w
      = compute_b_score v1 v2 (.int 1) v3 v4 w) ∧
    (compute_b_score v1 v2 v3 (.bool true) v4 w
      = compute_b_score v1 v2 v3 (.int 1) v4 w) ∧
    (compute_b_score v1 v2 v3 v4 (.bool true) w
      = compute_b_score v1 v2 v3 v4 (.int 1) w) ∧
    compute_b_score (.bool false) (.int 3) (.int 3) (.int 3) (.int 3) w
      = .error (.outOfRange "company_fit") :=
  ⟨rfl, rfl, rfl, rfl, rfl, rfl⟩

/-- C4: for every rating tuple of integers in [1,5]^5 and the default
weight vector, `compute_b_score` returns a value in the closed interval
[0.90, 4.50]. -/
theorem C4_default_range (a b c d e : ℤ)
    (ha1 : 1 ≤ a) (ha2 : a ≤ 5) (hb1 : 1 ≤ b) (hb2 : b ≤ 5)
    (hc1 : 1 ≤ c) (hc2 : c ≤ 5) (hd1 : 1 ≤ d) (hd2 : d ≤ 5)
    (he1 : 1 ≤ e) (he2 : e ≤ 5) :
    ∃ q, compute_b_score (.int a) (.int b) (.int c) (.int d) (.int e) defaultWeights = .ok q
      ∧ 0.90 ≤ q ∧ q ≤ 4.50 := by
  obtain ⟨q, h1, h2, h3⟩ :=
    default_score_bounds ha1 ha2 hb1 hb2 hc1 hc2 hd1 hd2 he1 he2
  refine ⟨q, h1, ?_, ?_⟩
  · have : (0.90 : ℚ) = 9/10 := by norm_num
    linarith
  · have : (4.50 : ℚ) = 9/2 := by norm_num
    linarith

theorem C4_default_range_witness :
    ∃ q, compute_b_score (.int 1) (.int 1) (.int 1) (.int 1) (.int 1) defaultWeights = .ok q
      ∧ 0.90 ≤ q ∧ q ≤ 4.50 :=
  C4_default_range 1 1 1 1 1 (by norm_num) (by norm_num) (by norm_num) (by norm_num)
    (by norm_num) (by norm_num) (by norm_num) (by norm_num) (by norm_num) (by norm_num)

/-- C7: the five default weights (company_fit 0.20, cost_stability 0.20,
manufacturability 0.15, customer_acceptance 0.15, repurchase 0.20) are
each non-negative and sum to 0.90, so the maximum score achievable with
the default weights is 4.50 (attained at all-5 ratings) rather than 5.0. -/
theorem C7_default_weights :
    (0 ≤ defaultWeights.company_fit ∧ 0 ≤ defaultWeights.cost_stability ∧
     0 ≤ defaultWeights.manufacturability ∧ 0 ≤ defaultWeights.customer_acceptance ∧
     0 ≤ defaultWeights.repurchase) ∧
    (defaultWeights.company_fit = 0.20 ∧ defaultWeights.cost_stability = 0.20 ∧
     defaultWeights.manufacturability = 0.15 ∧ defaultWeights.customer_acceptance = 0.15 ∧
     defaultWeights.repurchase = 0.20) ∧
    (defaultWeights.company_fit + defaultWeights.cost_stability
      + defaultWeights.manufacturability + defaultWeights.customer_acceptance
      + defaultWeights.repurchase = 0.90) ∧
    compute_b_score (.int 5) (.int 5) (.int 5) (.int 5) (.int 5) defaultWeights = .ok 4.50 ∧
    (∀ a b c d e : ℤ, 1 ≤ a → a ≤ 5 → 1 ≤ b → b ≤ 5 → 1 ≤ c → c ≤ 5 →
      1 ≤ d → d ≤ 5 → 1 ≤ e → e ≤ 5 →
      ∀ q, compute_b_score (.int a) (.int b) (.int c) (.int d) (.int e) defaultWeights = .ok q →
        q ≤ 4.50) := by
  refine ⟨by norm_num [defaultWeights], by norm_num [defaultWeights],
    by norm_num [defaultWeights], ?_, ?_⟩
  · rw [compute_int_valid defaultWeights (by norm_num) (by norm_num) (by norm_num) (by norm_num)
      (by norm_num) (by norm_num) (by norm_num) (by norm_num) (by norm_num) (by norm_num)]
    have hs : ((5 : ℤ) : ℚ) * defaultWeights.company_fit
        + ((5 : ℤ) : ℚ) * defaultWeights.cost_stability
        + ((5 : ℤ) : ℚ) * defaultWeights.manufacturability
        + ((5 : ℤ) : ℚ) * defaultWeights.customer_acceptance
        + ((5 : ℤ) : ℚ) * defaultWeights.repurchase = 9/2 := by
      norm_num [defaultWeights]
    rw [hs, round2_eq_self (show (9/2 : ℚ) * 100 = ((450 : ℤ) : ℚ) by norm_num)]
    norm_num
  · intro a b c d e ha1 ha2 hb1 hb2 hc1 hc2 hd1 hd2 he1 he2 q hq
    obtain ⟨q', h1, _, h3⟩ :=
      default_score_bounds ha1 ha2 hb1 hb2 hc1 hc2 hd1 hd2 he1 he2
    have hqq : q' = q := by
      have := h1.symm.trans hq
      simpa using this
    have : (4.50 : ℚ) = 9/2 := by norm_num
    subst hqq
    linarith

/-- C5: for every non-negative weight vector and valid rating tuple,
increasing any single rating by one (the others fixed, the result still
in [1,5]) never decreases the value returned by `compute_b_score`. -/
theorem C5_monotone (w : BScoreWeights)
    (hw1 : 0 ≤ w.company_fit) (hw2 : 0 ≤ w.cost_stability)
    (hw3 : 0 ≤ w.manufacturability) (hw4 : 0 ≤ w.customer_acceptance)
    (hw5 : 0 ≤ w.repurchase)
    (a b c d e : ℤ)
    (ha1 : 1 ≤ a) (ha2 : a ≤ 5) (hb1 : 1 ≤ b) (hb2 : b ≤ 5)
    (hc1 : 1 ≤ c) (hc2 : c ≤ 5) (hd1 : 1 ≤ d) (hd2 : d ≤ 5)
    (he1 : 1 ≤ e) (he2 : e ≤ 5) :
    (a + 1 ≤ 5 → okLe (compute_b_score (.int a) (.int b) (.int c) (.int d) (.int e) w)
      (compute_b_score (.int (a+1)) (.int b) (.int c) (.int d) (.int e) w)) ∧
    (b + 1 ≤ 5 → okLe (compute_b_score (.int a) (.int b) (.int c) (.int d) (.int e) w)
      (compute_b_score (.int a) (.int (b+1)) (.int c) (.int d) (.int e) w)) ∧
    (c + 1 ≤ 5 → okLe (compute_b_score (.int a) (.int b) (.int c) (.int d) (.int e) w)
      (compute_b_score (.int a) (.int b) (.int (c+1)) (.int d) (.int e) w)) ∧
    (d + 1 ≤ 5 → okLe (compute_b_score (.int a) (.int b) (.int c) (.int d) (.int e) w)
      (compute_b_score (.int a) (.int b) (.int c) (.int (d+1)) (.int e) w)) ∧
    (e + 1 ≤ 5 → okLe (compute_b_score (.int a) (.int b) (.int c) (.int d) (.int e) w)
      (compute_b_score (.int a) (.int b) (.int c) (.int d) (.int (e+1)) w)) := by
  refine ⟨fun h => ?_, fun h => ?_, fun h => ?_, fun h => ?_, fun h => ?_⟩
  · refine ⟨_, _, compute_int_valid w ha1 ha2 hb1 hb2 hc1 hc2 hd1 hd2 he1 he2,
      compute_int_valid w (by omega) h hb1 hb2 hc1 hc2 hd1 hd2 he1 he2, round2_mono ?_⟩
    push_cast
    linarith
  · refine ⟨_, _, compute_int_valid w ha1 ha2 hb1 hb2 hc1 hc2 hd1 hd2 he1 he2,
      compute_int_valid w ha1 ha2 (by omega) h hc1 hc2 hd1 hd2 he1 he2, round2_mono ?_⟩
    push_cast
    linarith
  · refine ⟨_, _, compute_int_valid w ha1 ha2 hb1 hb2 hc1 hc2 hd1 hd2 he1 he2,
      compute_int_valid w ha1 ha2 hb1 hb2 (by omega) h hd1 hd2 he1 he2, round2_mono ?_⟩
    push_cast
    linarith
  · refine ⟨_, _, compute_int_valid w ha1 ha2 hb1 hb2 hc1 hc2 hd1 hd2 he1 he2,
      compute_int_valid w ha1 ha2 hb1 hb2 hc1 hc2 (by omega) h he1 he2, round2_mono ?_⟩
    push_cast
    linarith
  · refine ⟨_, _, compute_int_valid w ha1 ha2 hb1 hb2 hc1 hc2 hd1 hd2 he1 he2,
      compute_int_valid w ha1 ha2 hb1 hb2 hc1 hc2 hd1 hd2 (by omega) h, round2_mono ?_⟩
    push_cast
    linarith

theorem C5_monotone_witness :
    okLe (compute_b_score (.int 1) (.int 1) (.int 1) (.int 1) (.int 1) defaultWeights)
      (compute_b_score (.int 2) (.int 1) (.int 1) (.int 1) (.int 1) defaultWeights) :=
  (C5_monotone defaultWeights
    (by norm_num [defaultWeights]) (by norm_num [defaultWeights]) (by norm_num [defaultWeights])
    (by norm_num [defaultWeights]) (by norm_num [defaultWeights])
    1 1 1 1 1 (by norm_num) (by norm_num) (by norm_num) (by norm_num) (by norm_num)
    (by norm_num) (by norm_num) (by norm_num) (by norm_num) (by norm_num)).1 (by norm_num)

/-- C6: for every valid rating tuple and weight vector, `compute_b_score`
returns the weighted sum Σ rating_i * weight_i over the five named
fields, rounded to two decimal places under the single consistent rule
round-half-to-even (the tie cases 2.5 and 3.5 round to the even
neighbours 2 and 4). -/
theorem C6_weighted_sum_rounded (w : BScoreWeights) (a b c d e : ℤ)
    (ha1 : 1 ≤ a) (ha2 : a ≤ 5) (hb1 : 1 ≤ b) (hb2 : b ≤ 5)
    (hc1 : 1 ≤ c) (hc2 : c ≤ 5) (hd1 : 1 ≤ d) (hd2 : d ≤ 5)
    (he1 : 1 ≤ e) (he2 : e ≤ 5) :
    compute_b_score (.int a) (.int b) (.int c) (.int d) (.int e) w
      = .ok (round2 ((a : ℚ) * w.company_fit + (b : ℚ) * w.cost_stability
          + (c : ℚ) * w.manufacturability + (d : ℚ) * w.customer_acceptance
          + (e : ℚ) * w.repurchase)) ∧
    roundHalfEven (5/2) = 2 ∧ roundHalfEven (7/2) = 4 := by
  refine ⟨compute_int_valid w ha1 ha2 hb1 hb2 hc1 hc2 hd1 hd2 he1 he2, ?_, ?_⟩
  · have hf : ⌊(5/2 : ℚ)⌋ = 2 := by norm_num
    unfold roundHalfEven
    rw [hf]
    norm_num
  · have hf : ⌊(7/2 : ℚ)⌋ = 3 := by norm_num
    unfold roundHalfEven
    rw [hf]
    norm_num

theorem C6_weighted_sum_rounded_witness :
    compute_b_score (.int 3) (.int 3) (.int 4) (.int 4) (.int 4) defaultWeights
      = .ok (round2 ((3 : ℚ) * defaultWeights.company_fit
          + (3 : ℚ) * defaultWeights.cost_stability
          + (4 : ℚ) * defaultWeights.manufacturability
          + (4 : ℚ) * defaultWeights.customer_acceptance
          + (4 : ℚ) * defaultWeights.repurchase)) ∧
    roundHalfEven (5/2) = 2 ∧ roundHalfEven (7/2) = 4 := by
  have h := C6_weighted_sum_rounded defaultWeights 3 3 4 4 4
    (by norm_num) (by norm_num) (by norm_num) (by norm_num) (by norm_num)
    (by norm_num) (by norm_num) (by norm_num) (by norm_num) (by norm_num)
  simpa using h

theorem C7_default_weights_witness :
    compute_b_score (.int 5) (.int 5) (.int 5) (.int 5) (.int 5) defaultWeights = .ok 4.50 ∧
    (4.50 : ℚ) ≤ 4.50 :=
  ⟨C7_default_weights.2.2.2.1,
    C7_default_weights.2.2.2.2 5 5 5 5 5 (by norm_num) (by norm_num) (by norm_num) (by norm_num)
      (by norm_num) (by norm_num) (by norm_num) (by norm_num) (by norm_num) (by norm_num)
      4.50 C7_default_weights.2.2.2.1⟩
